import Mathlib

/-!
Shallow embedding of the thousandeyes-futures library core, translated from
the C++ sources, together with theorems settling the specification claims.

Conventions of the embedding:
* C++ exceptions are values of `Err`; a function that can let an exception
  escape to its caller returns `Except Err _`.
* `std::future<T>` is a `FutureState T` snapshot (pending, holding a value,
  or holding an exception).
* `std::promise<T>` is a `PromiseState T`; `set_value`/`set_exception` throw
  `promiseAlreadySatisfied` when the promise already holds a result, exactly
  as `std::promise` does.
* Wall-clock instants and durations are integer milliseconds since the
  epoch, matching `toEpochTimestamp` in the source.
* User continuations are opaque total functions returning `Except Err _`
  (`.error` models the continuation throwing).
-/

namespace TEFutures

/-- Exceptions that can travel through the library: the two library-defined
wait errors, `std::future_error` conditions, and opaque user exceptions. -/
inductive Err where
  | waitExc (msg : String)
  | timedOutExc (msg : String)
  | promiseAlreadySatisfied
  | brokenPromise
  | userExc (code : Nat)
  deriving DecidableEq, Repr

/-- Predicate matching a catch clause for `WaitableWaitException`:
`WaitableTimedOutException` derives from it, so both kinds match. -/
def Err.isWaitException : Err → Bool
  | .waitExc _ => true
  | .timedOutExc _ => true
  | _ => false

/-- Snapshot of a `std::future<T>`: still pending, ready with a value, or
ready with a stored exception. -/
inductive FutureState (α : Type) where
  | pending
  | value (v : α)
  | failure (e : Err)
  deriving DecidableEq, Repr

/-- State of a `std::promise<T>`: not yet satisfied, satisfied with a value
or an exception, or destroyed without being satisfied (after which the
shared state reports `broken_promise`). -/
inductive PromiseState (α : Type) where
  | unset
  | value (v : α)
  | error (e : Err)
  | abandoned
  deriving DecidableEq, Repr

/-- Translation of `std::promise::set_value`: stores the value, or throws
`promise_already_satisfied` when a result is already stored. -/
def PromiseState.setValue (p : PromiseState α) (v : α) : Except Err (PromiseState α) :=
  match p with
  | .unset => .ok (.value v)
  | _ => .error .promiseAlreadySatisfied

/-- Translation of `std::promise::set_exception`: stores the exception, or
throws `promise_already_satisfied` when a result is already stored. -/
def PromiseState.setException (p : PromiseState α) (e : Err) : Except Err (PromiseState α) :=
  match p with
  | .unset => .ok (.error e)
  | _ => .error .promiseAlreadySatisfied

/-- Retrieval through the future connected to a promise: `none` models a
`get()` that blocks forever (promise never satisfied and still alive);
otherwise the stored value is returned or the stored exception is raised. -/
def PromiseState.get (p : PromiseState α) : Option (Except Err α) :=
  match p with
  | .unset => none
  | .value v => some (.ok v)
  | .error e => some (.error e)
  | .abandoned => some (.error .brokenPromise)

/-- Translation of `std::future::get` on a `FutureState` snapshot: `none`
models blocking on a pending future. -/
def FutureState.get (f : FutureState α) : Option (Except Err α) :=
  match f with
  | .pending => none
  | .value v => some (.ok v)
  | .failure e => some (.error e)

/-! ### FutureWithContinuation (detail/FutureWithContinuation.h) -/

/-- State of a `detail::FutureWithContinuation<TIn, TOut, TFunc>` adapter:
deadline inherited from `TimedWaitable`, the input future `f_`, the output
promise `p_` and the opaque continuation `cont_`. -/
structure FutureWithContinuation (TIn TOut : Type) where
  deadline : Int
  f : FutureState TIn
  p : PromiseState TOut
  cont : FutureState TIn → Except Err TOut

/-- Translation of `FutureWithContinuation::dispatch`. The outer `Except`
is an exception escaping `dispatch` to its caller. The returned `Bool`
records whether the user continuation was invoked. -/
def FutureWithContinuation.dispatch (w : FutureWithContinuation TIn TOut)
    (err : Option Err) : Except Err (FutureWithContinuation TIn TOut × Bool) :=
  match err with
  | some e =>
    match w.p.setException e with
    | .ok p₂ => .ok ({ w with p := p₂ }, false)
    | .error e₂ => .error e₂
  | none =>
    match w.cont w.f with
    | .ok v =>
      match w.p.setValue v with
      | .ok p₂ => .ok ({ w with p := p₂ }, true)
      | .error e₂ =>
        match w.p.setException e₂ with
        | .ok p₂ => .ok ({ w with p := p₂ }, true)
        | .error e₃ => .error e₃
    | .error e =>
      match w.p.setException e with
      | .ok p₂ => .ok ({ w with p := p₂ }, true)
      | .error e₃ => .error e₃

/-! ### FutureWithForwarding (detail/FutureWithForwarding.h) -/

/-- State of a `detail::FutureWithForwarding<T>` adapter: deadline from
`TimedWaitable`, input future `f_` and output promise `p_`. -/
structure FutureWithForwarding (T : Type) where
  deadline : Int
  f : FutureState T
  p : PromiseState T

/-- Translation of `FutureWithForwarding::dispatch`. The outer `Option` is
`none` when the body blocks forever (`f_.get()` on a pending future); the
`Except` is an exception escaping to the caller; the `Bool` records whether
the value branch (`p_.set_value(f_.get())`) ran. -/
def FutureWithForwarding.dispatch (w : FutureWithForwarding T)
    (err : Option Err) : Option (Except Err (FutureWithForwarding T × Bool)) :=
  match err with
  | some e =>
    match w.p.setException e with
    | .ok p₂ => some (.ok ({ w with p := p₂ }, false))
    | .error e₂ => some (.error e₂)
  | none =>
    match w.f.get with
    | none => none
    | some (.ok v) =>
      match w.p.setValue v with
      | .ok p₂ => some (.ok ({ w with p := p₂ }, true))
      | .error e₂ =>
        match w.p.setException e₂ with
        | .ok p₂ => some (.ok ({ w with p := p₂ }, true))
        | .error e₃ => some (.error e₃)
    | some (.error e) =>
      match w.p.setException e with
      | .ok p₂ => some (.ok ({ w with p := p₂ }, true))
      | .error e₃ => some (.error e₃)

/-! ### ObservedFutureWithContinuation (detail/ObservedFutureWithContinuation.h) -/

/-- State of a `detail::ObservedFutureWithContinuation<TIn, TFunc>` adapter:
no output promise, only the input future and the opaque continuation. -/
structure ObservedFutureWithContinuation (TIn : Type) where
  deadline : Int
  f : FutureState TIn
  cont : FutureState TIn → Except Err Unit

/-- Translation of `ObservedFutureWithContinuation::dispatch`: a non-null
error is rethrown to the caller via `std::rethrow_exception`, and the
continuation runs outside any try block, so its exception also escapes. -/
def ObservedFutureWithContinuation.dispatch (w : ObservedFutureWithContinuation TIn)
    (err : Option Err) : Except Err Unit :=
  match err with
  | some e => .error e
  | none => w.cont w.f

/-! ### Waitable deadline arithmetic (unnamed Waitable.h variant) and
TimedWaitable (TimedWaitable.h) -/

/-- Translation of `Waitable::expired`: the deadline has been exceeded when
the current epoch timestamp is greater than or equal to it. -/
def Waitable.expired (epochDeadline epochTimestamp : Int) : Bool :=
  epochTimestamp ≥ epochDeadline

/-- Translation of `Waitable::timeout`: milliseconds from the given
timestamp until the deadline (may be negative). -/
def Waitable.timeoutAt (epochDeadline epochTimestamp : Int) : Int :=
  epochDeadline - epochTimestamp

/-- Translation of `Waitable::compare`: difference of the two deadlines. -/
def Waitable.compare (epochDeadline otherDeadline : Int) : Int :=
  epochDeadline - otherDeadline

/-- Translation of `TimedWaitable::wait`. `deadline` is the stored epoch
deadline, `now` the timestamp sampled at entry, `q` the wait quantum, and
`tw` the subclass `timedWait` oracle. Besides the result (or escaping
`WaitableTimedOutException`), the list of arguments passed to `timedWait`
is returned, in call order, to make the number of calls observable. -/
def TimedWaitable.wait (deadline now : Int) (q : Nat) (tw : Nat → Bool) :
    Except Err Bool × List Nat :=
  if Waitable.expired deadline now = false then
    (.ok (tw q), [q])
  else if tw 0 then
    (.ok true, [0])
  else
    (.error (.timedOutExc "Wait limit exceeded"), [0])

/-- Translation of `TimedWaitable::getTimeout`: remaining time until the
deadline, measured at the given timestamp. -/
def TimedWaitable.getTimeout (deadline now : Int) : Int :=
  Waitable.timeoutAt deadline now

/-! ### FutureWithChaining (detail/FutureWithChaining.h) -/

/-- State of a `detail::FutureWithChaining<TIn, TOut, TFunc>` adapter: the
weak executor reference is `some id` while the executor is alive, the
continuation returns an inner future (or throws). -/
structure FutureWithChaining (TIn TOut : Type) where
  deadline : Int
  executor : Option Nat
  f : FutureState TIn
  p : PromiseState TOut
  cont : FutureState TIn → Except Err (FutureState TOut)

/-- Modelled from the spec: `FutureWithChaining::dispatch` calls a
`getWaitLimit()` accessor that is not defined anywhere under the provided
sources; per the spec the forwarding stage is created "with a deadline
equal to the remaining budget of this adapter", so the wait limit handed to
the forwarding stage is the remaining time until this adapter's deadline —
the quantity the source's `TimedWaitable::getTimeout` computes. -/
def FutureWithChaining.getWaitLimit (w : FutureWithChaining TIn TOut) (now : Int) : Int :=
  TimedWaitable.getTimeout w.deadline now

/-- Outcome of `FutureWithChaining::dispatch`: either a forwarding adapter
was submitted to the executor with the given id, or the output promise was
completed directly (error paths). -/
inductive ChainDispatchResult (TOut : Type) where
  | submitted (execId : Nat) (fwd : FutureWithForwarding TOut)
  | completed (p : PromiseState TOut)

/-- Translation of `FutureWithChaining::dispatch` at timestamp `now`. The
forwarding adapter is constructed with wait limit `getWaitLimit()`, hence
with absolute deadline `now + getWaitLimit w now` (the `TimedWaitable`
constructor turns a wait limit into "now + limit"). The `Bool` records
whether the user continuation was invoked. -/
def FutureWithChaining.dispatch (w : FutureWithChaining TIn TOut)
    (err : Option Err) (now : Int) :
    Except Err (ChainDispatchResult TOut × Bool) :=
  match err with
  | some e =>
    match w.p.setException e with
    | .ok p₂ => .ok (.completed p₂, false)
    | .error e₂ => .error e₂
  | none =>
    match w.executor with
    | some eid =>
      match w.cont w.f with
      | .ok inner =>
        .ok (.submitted eid
              { deadline := now + w.getWaitLimit now, f := inner, p := w.p }, true)
      | .error e =>
        match w.p.setException e with
        | .ok p₂ => .ok (.completed p₂, true)
        | .error e₃ => .error e₃
    | none =>
      match w.p.setException (.waitExc "No executor available") with
      | .ok p₂ => .ok (.completed p₂, false)
      | .error e₃ => .error e₃

/-! ### FutureWithContainer (detail/FutureWithContainer.h) -/

/-- Translation of `FutureWithContainer::timedWait`: each element of the
container is polled in sequence with the full timeout; the first element
not ready within it makes the whole poll return false. An element is the
oracle `Nat → Bool` telling whether `wait_for(timeout)` reports ready. -/
def FutureWithContainer.timedWait (futures : List (Nat → Bool)) (timeout : Nat) : Bool :=
  match futures with
  | [] => true
  | f :: fs => if f timeout then FutureWithContainer.timedWait fs timeout else false

/-! ### Default holder (Default.h, provided among the unnamed sources) -/

/-- Initial contents of `Default<T>::defaultInstance_`: a value-initialized
static `shared_ptr`, i.e. the null pointer. -/
def Default.initial (τ : Type) : Option τ := none

/-- Translation of the `Default<T>` conversion operator: a snapshot of the
current default instance. -/
def Default.read (g : Option τ) : Option τ := g

/-- State of a live `Default<T>::Setter`: the `prevInstance_` member. -/
structure DefaultSetter (τ : Type) where
  prevInstance : Option τ

/-- Translation of the `Default<T>::Setter` constructor: `prevInstance_` is
initialized with the argument, then swapped with `defaultInstance_`; the
net effect on the pair (setter, global) is that the global becomes the
argument and the setter remembers the displaced global. -/
def DefaultSetter.construct (inst : Option τ) (g : Option τ) :
    DefaultSetter τ × Option τ :=
  (⟨g⟩, inst)

/-- Translation of the `Default<T>::Setter` destructor: `defaultInstance_`
and `prevInstance_` are swapped back, restoring the remembered value. -/
def DefaultSetter.destruct (s : DefaultSetter τ) (_g : Option τ) : Option τ :=
  s.prevInstance

/-- Well-bracketed programs over the default holder: stack-allocated
setters enforce LIFO construction and destruction, which this tree shape
captures (`scope a body` = construct a setter with argument `a`, run
`body`, destroy the setter). -/
inductive DefaultProg (τ : Type) where
  | skip
  | seq (p₁ p₂ : DefaultProg τ)
  | scope (arg : Option τ) (body : DefaultProg τ)

/-- Effect of a well-bracketed setter program on the global default. -/
def DefaultProg.run : DefaultProg τ → Option τ → Option τ
  | .skip, g => g
  | .seq p₁ p₂, g => p₂.run (p₁.run g)
  | .scope a body, g =>
    let (s, g₁) := DefaultSetter.construct a g
    DefaultSetter.destruct s (body.run g₁)

/-! ### PollingExecutor (PollingExecutor.h), at lock granularity -/

/-- Shared state of a `PollingExecutor`: the active flag, the poller-running
flag, the queue of watched waitables (by id), and whether the two invoker
`unique_ptr`s still hold objects (`stop` resets them). -/
structure ExecState where
  active : Bool
  isPollerRunning : Bool
  waitables : List Nat
  pollFuncAlive : Bool
  dispatchFuncAlive : Bool
  deriving DecidableEq, Repr

/-- Freshly constructed executor: active, no poller, empty queue, both
invokers alive. -/
def ExecState.initial : ExecState :=
  { active := true, isPollerRunning := false, waitables := [],
    pollFuncAlive := true, dispatchFuncAlive := true }

/-- Observable events produced by executor code: a waitable handed to the
dispatch invoker together with the error it will be dispatched with, a
waitable `unique_ptr` destroyed without any dispatch, the poll loop handed
to the poll invoker, and a dereference of a null invoker pointer. -/
inductive ExecEvent where
  | dispatched (w : Nat) (e : Option Err)
  | destroyedUndispatched (w : Nat)
  | pollStarted
  | undefinedBehavior
  deriving DecidableEq, Repr

/-- Translation of `PollingExecutor::dispatch_`: hands the waitable and the
error to the dispatch invoker; dereferencing the invoker pointer after
`stop` reset it is undefined behavior. -/
def PollingExecutor.dispatchOne (dispatchFuncAlive : Bool) (w : Nat)
    (e : Option Err) : ExecEvent :=
  if dispatchFuncAlive then .dispatched w e else .undefinedBehavior

/-- Translation of `PollingExecutor::watch`: under the lock, an active
executor enqueues the waitable and starts the poller when none runs; an
inactive executor, after releasing the lock, hands the waitable to the
dispatch invoker with a `WaitableWaitException("Executor inactive")`. -/
def PollingExecutor.watch (s : ExecState) (w : Nat) : ExecState × List ExecEvent :=
  if s.active then
    let s₂ := { s with waitables := s.waitables ++ [w] }
    if s₂.isPollerRunning then
      (s₂, [])
    else
      let s₃ := { s₂ with isPollerRunning := true }
      if s₃.pollFuncAlive then (s₃, [.pollStarted]) else (s₃, [.undefinedBehavior])
  else
    (s, [PollingExecutor.dispatchOne s.dispatchFuncAlive w
          (some (.waitExc "Executor inactive"))])

/-- Translation of `PollingExecutor::stop`: under the lock the active flag
is cleared and the queue is taken; if the executor was already inactive the
taken vector is destroyed on return (its waitables are destroyed without
dispatch); otherwise each taken waitable is handed to the dispatch invoker
with `WaitableWaitException("Executor stoped")` and both invoker pointers
are reset. -/
def PollingExecutor.stop (s : ExecState) : ExecState × List ExecEvent :=
  let wasActive := s.active
  let pending := s.waitables
  let s₂ := { s with active := false, waitables := [] }
  if wasActive = false then
    (s₂, pending.map (fun w => .destroyedUndispatched w))
  else
    (({ s₂ with pollFuncAlive := false, dispatchFuncAlive := false }),
     pending.map (fun w =>
       PollingExecutor.dispatchOne s.dispatchFuncAlive w
         (some (.waitExc "Executor stoped"))))

/-- Insertion step of the poll loop's `std::upper_bound` merge: a new
waitable goes in front of the first already-polled waitable whose deadline
is at least its own, keeping the batch sorted by deadline. -/
def PollingExecutor.insertByDeadline (dl : Nat → Int) (nw : Nat) :
    List Nat → List Nat
  | [] => [nw]
  | x :: xs =>
    if Waitable.compare (dl nw) (dl x) ≤ 0 then nw :: x :: xs
    else x :: PollingExecutor.insertByDeadline dl nw xs

/-- Outcome of one `w->wait(q_)` call inside the poll loop. -/
inductive PollOutcome where
  | notReady
  | ready
  | raises (e : Err)
  deriving DecidableEq, Repr

/-- Polling pass over the batch: a ready waitable is handed to the dispatch
invoker with no error, a throwing one with the raised error, and a
not-ready one stays in the batch (the subsequent `remove_if` erasure of
moved-from entries is folded in). -/
def PollingExecutor.pollPass (dispatchFuncAlive : Bool)
    (beh : Nat → PollOutcome) : List Nat → List Nat × List ExecEvent
  | [] => ([], [])
  | w :: ws =>
    let rest := PollingExecutor.pollPass dispatchFuncAlive beh ws
    match beh w with
    | .notReady => (w :: rest.1, rest.2)
    | .ready => (rest.1, PollingExecutor.dispatchOne dispatchFuncAlive w none :: rest.2)
    | .raises e =>
      (rest.1, PollingExecutor.dispatchOne dispatchFuncAlive w (some e) :: rest.2)

/-- One iteration of `PollingExecutor::poll_`. Under the lock: when the
executor is inactive, or both the batch and the queue are empty, the
poller-running flag is cleared, the batch is moved back into the queue and
the loop exits (final `Bool` is `true`); otherwise the queue is drained,
merged into the batch by deadline, and every batch member is polled once. -/
def PollingExecutor.pollIter (dl : Nat → Int) (beh : Nat → PollOutcome)
    (s : ExecState) (polling : List Nat) :
    ExecState × List Nat × List ExecEvent × Bool :=
  if (polling.isEmpty && s.waitables.isEmpty) || s.active = false then
    ({ s with isPollerRunning := false, waitables := s.waitables ++ polling },
     [], [], true)
  else
    let newWaitables := s.waitables
    let s₂ := { s with waitables := [] }
    let merged := newWaitables.foldl
      (fun acc nw => PollingExecutor.insertByDeadline dl nw acc) polling
    let passed := PollingExecutor.pollPass s₂.dispatchFuncAlive beh merged
    (s₂, passed.1, passed.2, false)

/-- Translation of `FutureWithContinuation::timedWait` on a snapshot of the
input future: `f_.wait_for(timeout)` reports ready exactly when the shared
state holds a value or an exception. -/
def FutureWithContinuation.timedWait (w : FutureWithContinuation TIn TOut)
    (_timeout : Nat) : Bool :=
  match w.f with
  | .pending => false
  | _ => true

/-- Helper fact about the default holder: every well-bracketed setter
program leaves the global default exactly as it found it, because each
destructor restores the value its constructor displaced, in LIFO order. -/
theorem DefaultProg.run_restores (p : DefaultProg τ) (g : Option τ) :
    p.run g = g := by
  induction p generalizing g with
  | skip => rfl
  | seq p₁ p₂ ih₁ ih₂ =>
    simp only [DefaultProg.run, ih₁, ih₂]
  | scope a body ih =>
    simp only [DefaultProg.run, DefaultSetter.construct, DefaultSetter.destruct]

/-! ## Claims -/

/-- C1 counterexample: an input future that became ready holding an
exception makes `timedWait` report ready, so the executor calls `dispatch`
with a null error; the user continuation IS then invoked, and with a
continuation that ignores its argument and returns 42 the output promise
receives the value 42 — the input error `userExc 5` is not forwarded to the
output promise, contradicting the claim. -/
theorem C1_input_error_invokes_continuation :
    FutureWithContinuation.timedWait
      (⟨100, .failure (.userExc 5), .unset, fun _ => .ok (42 : Nat)⟩ :
        FutureWithContinuation Nat Nat) 10 = true ∧
    FutureWithContinuation.dispatch
      (⟨100, .failure (.userExc 5), .unset, fun _ => .ok (42 : Nat)⟩ :
        FutureWithContinuation Nat Nat) none
      = .ok (⟨100, .failure (.userExc 5), .value 42, fun _ => .ok 42⟩, true) :=
  ⟨rfl, rfl⟩

/-- C1 (amended): when the executor hands the continuation adapter a
non-null wait-time error, the user continuation is not invoked and exactly
that error is set on the output promise, so retrieving the output future
raises it; an input future that became ready holding an exception is
instead passed to the continuation (dispatch runs with a null error), and
the input error reaches the output promise exactly when the continuation
rethrows it, as it does when it calls get on the input future. -/
theorem C1_error_forwarding_amended {TIn TOut : Type}
    (w : FutureWithContinuation TIn TOut) (e : Err) (hp : w.p = .unset) :
    (w.dispatch (some e) = .ok ({ w with p := .error e }, false) ∧
      (PromiseState.error e : PromiseState TOut).get = some (.error e)) ∧
    (w.cont w.f = .error e →
      w.dispatch none = .ok ({ w with p := .error e }, true)) := by
  refine ⟨⟨?_, rfl⟩, fun hc => ?_⟩
  · simp [FutureWithContinuation.dispatch, hp, PromiseState.setException]
  · simp [FutureWithContinuation.dispatch, hc, hp, PromiseState.setException]

/-- C1 witness: the amended theorem applied to a concrete adapter holding
a failed input future and a continuation that rethrows the input error. -/
theorem C1_error_forwarding_amended_witness :
    (FutureWithContinuation.dispatch
      (⟨0, .failure (.userExc 3), .unset, fun _ => .ok (9 : Nat)⟩ :
        FutureWithContinuation Nat Nat) (some (.userExc 3))
      = .ok (⟨0, .failure (.userExc 3), .error (.userExc 3), fun _ => .ok 9⟩, false)) ∧
    (FutureWithContinuation.dispatch
      (⟨0, .failure (.userExc 3), .unset, fun f =>
          match f with
          | .failure e => .error e
          | _ => .ok (9 : Nat)⟩ :
        FutureWithContinuation Nat Nat) none
      = .ok (⟨0, .failure (.userExc 3), .error (.userExc 3), fun f =>
          match f with
          | .failure e => .error e
          | _ => .ok 9⟩, true)) :=
  ⟨(C1_error_forwarding_amended _ (.userExc 3) rfl).1.1,
   (C1_error_forwarding_amended _ (.userExc 3) rfl).2 rfl⟩

/-- C3: wait while the deadline has not passed delegates to a single
timedWait call with the full quantum; wait once the deadline has passed
makes exactly one timedWait call, with a zero quantum, returning true when
that call reports ready and raising WaitableTimedOutException otherwise. -/
theorem C3_wait_deadline_cases (deadline now : Int) (q : Nat) (tw : Nat → Bool) :
    (now < deadline →
      TimedWaitable.wait deadline now q tw = (.ok (tw q), [q])) ∧
    (deadline ≤ now →
      TimedWaitable.wait deadline now q tw =
        if tw 0 then (.ok true, [0])
        else (.error (.timedOutExc "Wait limit exceeded"), [0])) := by
  constructor
  · intro h
    have hexp : Waitable.expired deadline now = false := by
      simp [Waitable.expired]
      omega
    simp [TimedWaitable.wait, hexp]
  · intro h
    have hexp : Waitable.expired deadline now = true := by
      simp [Waitable.expired]
      omega
    by_cases h0 : tw 0 = true
    · simp [TimedWaitable.wait, hexp, h0]
    · simp only [Bool.not_eq_true] at h0
      simp [TimedWaitable.wait, hexp, h0]

/-- C3 witness: the theorem applied with a never-ready timedWait oracle,
once before the deadline (one call with the full quantum) and once after
it (one zero-quantum call followed by the timeout error). -/
theorem C3_wait_deadline_cases_witness :
    TimedWaitable.wait 10 0 5 (fun _ => false) = (.ok false, [5]) ∧
    TimedWaitable.wait 10 20 5 (fun _ => false)
      = (.error (.timedOutExc "Wait limit exceeded"), [0]) :=
  ⟨(C3_wait_deadline_cases 10 0 5 (fun _ => false)).1 (by norm_num),
   (C3_wait_deadline_cases 10 20 5 (fun _ => false)).2 (by norm_num)⟩

/-- C5 (with the missing getWaitLimit modelled from the spec as the
remaining deadline budget): a chained adapter built at time t₀ with user
limit L, dispatched with no error while its executor is alive and with a
continuation returning an inner future, submits to that same executor a
forwarding adapter over the inner future carrying the original output
promise, whose absolute deadline equals — hence does not exceed — the
deadline t₀ + L the user supplied. -/
theorem C5_chaining_preserves_budget {TIn TOut : Type}
    (w : FutureWithChaining TIn TOut) (t₀ L now : Int) (eid : Nat)
    (inner : FutureState TOut)
    (hd : w.deadline = t₀ + L) (he : w.executor = some eid)
    (hc : w.cont w.f = .ok inner) :
    ∃ fwd : FutureWithForwarding TOut,
      w.dispatch none now = .ok (.submitted eid fwd, true) ∧
      fwd.f = inner ∧ fwd.p = w.p ∧ fwd.deadline = t₀ + L ∧
      fwd.deadline ≤ t₀ + L := by
  refine ⟨{ deadline := now + w.getWaitLimit now, f := inner, p := w.p },
    ?_, rfl, rfl, ?_, ?_⟩
  · simp [FutureWithChaining.dispatch, he, hc]
  · simp [FutureWithChaining.getWaitLimit, TimedWaitable.getTimeout,
      Waitable.timeoutAt, hd]
  · simp [FutureWithChaining.getWaitLimit, TimedWaitable.getTimeout,
      Waitable.timeoutAt, hd]

/-- C5 witness: the theorem applied to a concrete chained adapter with
deadline 50 = 20 + 30, a live executor with id 1 and a continuation
returning a ready inner future, dispatched at time 40. -/
theorem C5_chaining_preserves_budget_witness :
    ∃ fwd : FutureWithForwarding Nat,
      FutureWithChaining.dispatch
        (⟨50, some 1, .value 3, .unset, fun _ => .ok (.value 9)⟩ :
          FutureWithChaining Nat Nat) none 40
        = .ok (.submitted 1 fwd, true) ∧
      fwd.f = .value 9 ∧ fwd.p = .unset ∧ fwd.deadline = 20 + 30 ∧
      fwd.deadline ≤ 20 + 30 :=
  C5_chaining_preserves_budget _ 20 30 40 1 (.value 9) (by norm_num) rfl rfl

/-- C6 counterexample: the Observed adapter is a Pollable whose dispatch,
handed a non-null error, rethrows that exact error to its caller instead
of capturing it — there is no output promise to absorb it. -/
theorem C6_observed_dispatch_raises :
    ObservedFutureWithContinuation.dispatch
      (⟨0, .pending, fun _ => .ok ()⟩ : ObservedFutureWithContinuation Nat)
      (some (.userExc 7)) = .error (.userExc 7) :=
  rfl

/-- C6 (amended): for the promise-owning adapters (continuation and
forwarding), dispatch never raises back to its caller whatever the error
argument, provided the output promise has not yet been satisfied — every
user-side or input-carried exception is captured into that promise; the
Observed adapter, which owns no output promise, instead rethrows input
errors and lets continuation exceptions escape on the dispatch thread by
design. -/
theorem C6_dispatch_never_raises_amended {TIn TOut T : Type}
    (w : FutureWithContinuation TIn TOut) (v : FutureWithForwarding T)
    (err : Option Err) (hp : w.p = .unset) (hv : v.p = .unset) :
    (∃ r, w.dispatch err = .ok r) ∧
    ∀ res, v.dispatch err = some res → ∃ r, res = .ok r := by
  constructor
  · cases err with
    | some e =>
      exact ⟨({ w with p := .error e }, false),
        by simp [FutureWithContinuation.dispatch, hp, PromiseState.setException]⟩
    | none =>
      rcases hcw : w.cont w.f with e₀ | v₀
      · exact ⟨({ w with p := .error e₀ }, true),
          by simp [FutureWithContinuation.dispatch, hcw, hp,
            PromiseState.setException]⟩
      · exact ⟨({ w with p := .value v₀ }, true),
          by simp [FutureWithContinuation.dispatch, hcw, hp,
            PromiseState.setValue]⟩
  · intro res hres
    cases err with
    | some e =>
      simp [FutureWithForwarding.dispatch, hv, PromiseState.setException] at hres
      exact ⟨_, hres.symm⟩
    | none =>
      cases hf : v.f with
      | pending =>
        simp [FutureWithForwarding.dispatch, hf, FutureState.get] at hres
      | value v₁ =>
        simp [FutureWithForwarding.dispatch, hf, FutureState.get, hv,
          PromiseState.setValue] at hres
        exact ⟨_, hres.symm⟩
      | failure e₁ =>
        simp [FutureWithForwarding.dispatch, hf, FutureState.get, hv,
          PromiseState.setException] at hres
        exact ⟨_, hres.symm⟩

/-- C6 witness: the amended theorem applied to concrete continuation and
forwarding adapters with unset promises and a concrete error argument. -/
theorem C6_dispatch_never_raises_amended_witness :
    (∃ r, FutureWithContinuation.dispatch
      (⟨0, .value 4, .unset, fun _ => .error (.userExc 11)⟩ :
        FutureWithContinuation Nat Nat) none = .ok r) ∧
    ∀ res, FutureWithForwarding.dispatch
      (⟨0, .failure (.userExc 12), .unset⟩ : FutureWithForwarding Nat) none
        = some res → ∃ r, res = .ok r :=
  C6_dispatch_never_raises_amended _ _ none rfl rfl

/-- C9: dispatching a continuation or forwarding adapter with a non-null
error sets exactly that error on the output promise; the returned flag
false records that the user continuation was not invoked and that the
value branch did not run, and the record update leaves the input future
untouched. -/
theorem C9_error_branch {TIn TOut T : Type}
    (w : FutureWithContinuation TIn TOut) (v : FutureWithForwarding T)
    (e : Err) (hp : w.p = .unset) (hv : v.p = .unset) :
    w.dispatch (some e) = .ok ({ w with p := .error e }, false) ∧
    v.dispatch (some e) = some (.ok ({ v with p := .error e }, false)) := by
  constructor
  · simp [FutureWithContinuation.dispatch, hp, PromiseState.setException]
  · simp [FutureWithForwarding.dispatch, hv, PromiseState.setException]

/-- C9 witness: the theorem applied to concrete adapters with pending
input futures, showing the promise receives exactly the error and the
input future stays pending. -/
theorem C9_error_branch_witness :
    FutureWithContinuation.dispatch
      (⟨0, .pending, .unset, fun _ => .ok (1 : Nat)⟩ :
        FutureWithContinuation Nat Nat) (some (.userExc 2))
      = .ok (⟨0, .pending, .error (.userExc 2), fun _ => .ok 1⟩, false) ∧
    FutureWithForwarding.dispatch
      (⟨0, .pending, .unset⟩ : FutureWithForwarding Nat) (some (.userExc 2))
      = some (.ok (⟨0, .pending, .error (.userExc 2)⟩, false)) :=
  C9_error_branch _ _ (.userExc 2) rfl rfl

/-- C8: the All-container adapter polls its elements in sequence with the
full quantum each, and timedWait returns true exactly when every element
reports ready within it; the empty container is immediately ready. -/
theorem C8_container_all_ready (futures : List (Nat → Bool)) (q : Nat) :
    (FutureWithContainer.timedWait futures q = true ↔
      ∀ f ∈ futures, f q = true) ∧
    FutureWithContainer.timedWait [] q = true := by
  refine ⟨?_, rfl⟩
  induction futures with
  | nil => simp [FutureWithContainer.timedWait]
  | cons f fs ih =>
    by_cases h : f q = true
    · simp [FutureWithContainer.timedWait, h, ih]
    · simp only [Bool.not_eq_true] at h
      simp [FutureWithContainer.timedWait, h]

/-- C8 witness: the theorem applied to a concrete two-element container
whose members are both ready within quantum 5, and to the empty
container. -/
theorem C8_container_all_ready_witness :
    FutureWithContainer.timedWait [fun _ => true, fun t => 2 ≤ t] 5 = true ∧
    FutureWithContainer.timedWait [] 17 = true :=
  ⟨(C8_container_all_ready [fun _ => true, fun t => 2 ≤ t] 5).1.mpr
      (by
        intro f hf
        simp only [List.mem_cons, List.mem_singleton] at hf
        rcases hf with rfl | rfl | h
        · rfl
        · simp
        · cases h),
   (C8_container_all_ready [] 17).2⟩

/-- C10: the default holder starts out null, every well-bracketed family
of setters leaves it null again after the last destructor runs, a setter
constructor installs exactly its argument, and a setter destructor
restores exactly the value that was installed when it was constructed. -/
theorem C10_default_holder (τ : Type) (p : DefaultProg τ) (a g r : Option τ) :
    Default.read (Default.initial τ) = none ∧
    Default.read (DefaultProg.run p (Default.initial τ)) = none ∧
    (DefaultSetter.construct a g).2 = a ∧
    DefaultSetter.destruct (DefaultSetter.construct a g).1 r = g :=
  ⟨rfl, by rw [DefaultProg.run_restores]; rfl, rfl, rfl⟩

/-- C10 witness: the theorem applied to a concrete nested setter program
and concrete installed values. -/
theorem C10_default_holder_witness :
    Default.read (Default.initial Nat) = none ∧
    Default.read (DefaultProg.run
      (.scope (some 5) (.scope (some 6) .skip)) (Default.initial Nat)) = none ∧
    (DefaultSetter.construct (some 3) (none : Option Nat)).2 = some 3 ∧
    DefaultSetter.destruct
      (DefaultSetter.construct (some 3) (none : Option Nat)).1 (some 8) = none :=
  C10_default_holder Nat (.scope (some 5) (.scope (some 6) .skip))
    (some 3) none (some 8)

/-- C7: the first stop call on an active executor with a live dispatch
invoker marks it inactive, takes the whole queue and hands each held
waitable to the dispatch invoker exactly once with the stopped wait-error;
a second stop call returns the state unchanged and produces no events, and
the executor stays inactive under every later watch, stop or poll-loop
iteration. -/
theorem C7_stop_idempotent (s : ExecState) (hs : s.active = true)
    (hd : s.dispatchFuncAlive = true) :
    (PollingExecutor.stop s).1.active = false ∧
    (PollingExecutor.stop s).1.waitables = [] ∧
    (PollingExecutor.stop s).2
      = s.waitables.map
          (fun w => .dispatched w (some (.waitExc "Executor stoped"))) ∧
    (∀ w, ((PollingExecutor.stop s).2).count
        (.dispatched w (some (.waitExc "Executor stoped")))
      = s.waitables.count w) ∧
    PollingExecutor.stop (PollingExecutor.stop s).1
      = ((PollingExecutor.stop s).1, []) ∧
    (∀ w, (PollingExecutor.watch (PollingExecutor.stop s).1 w).1.active = false) ∧
    (∀ dl beh polling,
      (PollingExecutor.pollIter dl beh (PollingExecutor.stop s).1 polling).1.active
        = false) := by
  obtain ⟨a, ipr, ws, pf, df⟩ := s
  simp only at hs hd
  subst hs
  subst hd
  refine ⟨rfl, rfl, ?_, ?_, ?_, ?_, ?_⟩
  · simp [PollingExecutor.stop, PollingExecutor.dispatchOne]
  · intro w
    simp only [PollingExecutor.stop, PollingExecutor.dispatchOne, if_pos,
      Bool.true_eq_false, if_false, if_true]
    exact List.count_map_of_injective ws
      (fun w => ExecEvent.dispatched w (some (Err.waitExc "Executor stoped")))
      (fun x y hxy => by simpa using hxy) w
  · simp [PollingExecutor.stop]
  · intro w
    simp [PollingExecutor.stop, PollingExecutor.watch, PollingExecutor.dispatchOne]
  · intro dl beh polling
    simp [PollingExecutor.stop, PollingExecutor.pollIter]

/-- C7 witness: the theorem applied to a concrete active executor holding
two waitables: the first stop dispatches both with the stopped error,
leaves the queue empty, and a repeated stop is a no-op. -/
theorem C7_stop_idempotent_witness :
    (PollingExecutor.stop
        ⟨true, false, [1, 2], true, true⟩).1.active = false ∧
    (PollingExecutor.stop
        ⟨true, false, [1, 2], true, true⟩).2
      = [.dispatched 1 (some (.waitExc "Executor stoped")),
         .dispatched 2 (some (.waitExc "Executor stoped"))] ∧
    ((PollingExecutor.stop ⟨true, false, [1, 2], true, true⟩).2).count
        (.dispatched 1 (some (.waitExc "Executor stoped"))) = 1 ∧
    PollingExecutor.stop
        (PollingExecutor.stop ⟨true, false, [1, 2], true, true⟩).1
      = ((PollingExecutor.stop ⟨true, false, [1, 2], true, true⟩).1, []) :=
  ⟨(C7_stop_idempotent _ rfl rfl).1,
   (C7_stop_idempotent _ rfl rfl).2.2.1,
   (C7_stop_idempotent ⟨true, false, [1, 2], true, true⟩ rfl rfl).2.2.2.1 1,
   (C7_stop_idempotent _ rfl rfl).2.2.2.2.1⟩

/-- C2: a waitable submitted to a live executor can receive zero dispatch
calls: after watch(0) starts the poller and one poll iteration takes 0
into the local batch (not ready), a stop call finds the queue empty and
dispatches nothing; the next poll iteration notices inactivity and moves
the batch back into the already-drained queue, and the destructor-driven
second stop destroys 0 without any dispatch — contradicting the claimed
exactly-one-dispatch and dispatch-with-wait-error-at-teardown behavior. -/
theorem C2_batch_leaked_on_stop :
    (PollingExecutor.watch ExecState.initial 0).2 = [.pollStarted] ∧
    (let st₁ := (PollingExecutor.watch ExecState.initial 0).1
     let it₁ := PollingExecutor.pollIter (fun _ => 100) (fun _ => .notReady) st₁ []
     let st₂ := PollingExecutor.stop it₁.1
     let it₂ := PollingExecutor.pollIter (fun _ => 100) (fun _ => .notReady)
       st₂.1 it₁.2.1
     let st₃ := PollingExecutor.stop it₂.1
     let evs := (PollingExecutor.watch ExecState.initial 0).2 ++ it₁.2.2.1
       ++ st₂.2 ++ it₂.2.2.1 ++ st₃.2
     evs = [.pollStarted, .destroyedUndispatched 0] ∧
       evs.countP (fun ev =>
         match ev with
         | .dispatched 0 _ => true
         | _ => false) = 0 ∧
       it₂.2.2.2 = true ∧ st₃.1.waitables = [] ∧ st₃.1.active = false) := by
  exact ⟨rfl, rfl, rfl, rfl, rfl, rfl⟩

/-- C4: stop on the initial executor resets the dispatch invoker pointer,
so a watch call made after stop completed dereferences a null pointer
(undefined behavior) instead of handing the waitable to the dispatch
invoker with a wait-error: no dispatch event for the waitable occurs. -/
theorem C4_watch_after_stop_crashes :
    (PollingExecutor.stop ExecState.initial).1.dispatchFuncAlive = false ∧
    (PollingExecutor.watch (PollingExecutor.stop ExecState.initial).1 7).2
      = [.undefinedBehavior] ∧
    ((PollingExecutor.watch (PollingExecutor.stop ExecState.initial).1 7).2).countP
      (fun ev =>
        match ev with
        | .dispatched _ _ => true
        | _ => false) = 0 := by
  exact ⟨rfl, rfl, rfl⟩

end TEFutures
